import Mathlib

/-!
Shallow embedding of the Holzeinschlag Austria web service (Go sources:
the session-based server in src/unnamed/part_000, with src/main.go as the
basic-auth variant of the same handlers). Strings are modelled by Lean
strings (lists of characters); Go time instants and durations are modelled
as natural numbers of nanoseconds; effects of handlers (file reads,
external tool runs) are passed in explicitly as values.
-/

namespace Holzeinschlag

/-! ## String helpers embedding the Go standard library functions used -/

/-- Embeds strings.Split(s, ",") at the character-list level: splitting an
empty input yields one empty field, and every comma starts a new field. -/
def splitCommaChars : List Char → List (List Char)
  | [] => [[]]
  | c :: rest =>
    match splitCommaChars rest with
    | [] => [[]]
    | h :: t => if c = ',' then [] :: h :: t else (c :: h) :: t

/-- Embeds strings.Split(s, ",") on strings. -/
def splitComma (s : String) : List String :=
  (splitCommaChars s.data).map (fun l => (⟨l⟩ : String))

/-- The whitespace predicate of Go unicode.IsSpace restricted to the
Latin-1 range (tab, newline, vertical tab, form feed, carriage return,
space, next line, no-break space); the region identifiers and year tokens
the service handles contain at most ASCII whitespace. -/
def isSpaceChar (c : Char) : Bool :=
  c = ' ' || c = '\t' || c = '\n' || c = '\x0b' || c = '\x0c' || c = '\r' ||
  c = '\x85' || c = '\xa0'

/-- Drop leading and trailing whitespace from a character list. -/
def trimChars (cs : List Char) : List Char :=
  ((cs.dropWhile isSpaceChar).reverse.dropWhile isSpaceChar).reverse

/-- Embeds strings.TrimSpace. -/
def goTrimSpace (s : String) : String := ⟨trimChars s.data⟩

/-- Joining a list of strings with a separator (the semantics of
strings.Join as used by the export handler). -/
def joinWith (sep : String) : List String → String
  | [] => ""
  | [x] => x
  | x :: y :: rest => x ++ sep ++ joinWith sep (y :: rest)

/-- Embeds strings.ReplaceAll(s, ",", "-"): with a one-character pattern
and replacement this is a character map. -/
def replaceCommaDash (s : String) : String :=
  ⟨s.data.map (fun c => if c = ',' then '-' else c)⟩

/-- Character-level join with a dash separator, used to relate
replaceCommaDash to splitting. -/
def joinDashChars : List (List Char) → List Char
  | [] => []
  | [x] => x
  | x :: y :: rest => x ++ '-' :: joinDashChars (y :: rest)

/-- Boolean prefix test on character lists. -/
def listHasPre : List Char → List Char → Bool
  | [], _ => true
  | _ :: _, [] => false
  | a :: as, b :: bs => a = b && listHasPre as bs

/-- Boolean substring-occurrence test: does the needle occur contiguously
inside the haystack? -/
def subOccurs (needle : List Char) : List Char → Bool
  | [] => listHasPre needle []
  | c :: rest => listHasPre needle (c :: rest) || subOccurs needle rest

/-! ## The Go JSON encoder on string-to-string maps

json.NewEncoder(w).Encode(m) for a Go map serializes the object with its
keys in sorted (byte-lexicographic) order and appends a newline. The
values the service encodes are plain ASCII without characters needing
escaping, so each value is serialized as a plain quoted string. -/

/-- Byte-lexicographic strict order on character lists (the order Go uses
to sort JSON object keys). -/
def charListLt : List Char → List Char → Bool
  | [], [] => false
  | [], _ :: _ => true
  | _ :: _, [] => false
  | a :: as, b :: bs => if a = b then charListLt as bs else decide (a < b)

/-- Insert a key-value pair into a key-sorted list, keeping it sorted. -/
def insertByKey (p : String × String) :
    List (String × String) → List (String × String)
  | [] => [p]
  | q :: t =>
    if charListLt q.1.data p.1.data then q :: insertByKey p t else p :: q :: t

/-- Sort a key-value list by key (insertion sort). -/
def sortByKey (l : List (String × String)) : List (String × String) :=
  l.foldr insertByKey []

/-- Serialize one key-value pair as a JSON object member. -/
def jsonMember (kv : String × String) : String :=
  "\"" ++ kv.1 ++ "\":\"" ++ kv.2 ++ "\""

/-- Embeds json.NewEncoder(w).Encode on a string-valued map: object with
keys in sorted order, followed by a newline. -/
def goJsonObj (kvs : List (String × String)) : String :=
  "\x7b" ++ String.intercalate "," ((sortByKey kvs).map jsonMember) ++ "\x7d\n"

/-! ## Session store (part_000 lines 30-95) -/

/-- The in-memory sessions map, token to expiry instant (nanoseconds). A
Go map update shadows earlier bindings, so an association list updated by
consing to the front is a faithful model. -/
abbrev SessionStore := List (String × Nat)

/-- Lookup of a token in the sessions map (first binding wins). -/
def lookupSession : SessionStore → String → Option Nat
  | [], _ => none
  | (t, e) :: rest, tok => if t = tok then some e else lookupSession rest tok

/-- sessionDuration = 24 * time.Hour in nanoseconds. -/
def sessionDuration : Nat := 24 * 60 * 60 * 1000000000

/-- createSession stores the freshly generated token with expiry
now + sessionDuration (part_000 lines 72-74). -/
def createSession (store : SessionStore) (token : String) (now : Nat) :
    SessionStore :=
  (token, now + sessionDuration) :: store

/-- isValidSession (part_000 lines 54-67): no session cookie yields false;
otherwise the token is looked up, and the session is valid iff it exists
and time.Now().Before(expiry), i.e. now is strictly before the expiry. -/
def isValidSession (store : SessionStore) (cookie : Option String)
    (now : Nat) : Bool :=
  match cookie with
  | none => false
  | some tok =>
    match lookupSession store tok with
    | none => false
    | some expiry => decide (now < expiry)

/-! ## Session cookie transport (part_000 lines 76-94) -/

/-- The http.SameSite modes used by the handler. -/
inductive SameSite
  | laxMode
  | noneMode
  deriving DecidableEq

/-- The fields of the http.Cookie the login handler sets. -/
structure SessionCookie where
  name : String
  value : String
  path : String
  httpOnly : Bool
  secure : Bool
  sameSite : SameSite
  maxAge : Nat
  deriving DecidableEq

/-- createSession cookie construction (part_000 lines 76-94): the
connection counts as secure when the X-Forwarded-Proto header equals
"https" or the request carries direct TLS; SameSite is None when secure
and Lax otherwise; HttpOnly is always set; MaxAge is the session duration
in seconds. -/
def buildSessionCookie (token : String) (xForwardedProto : String)
    (hasTLS : Bool) : SessionCookie :=
  let isSecure := xForwardedProto = "https" || hasTLS
  let ss := if isSecure then SameSite.noneMode else SameSite.laxMode
  { name := "session", value := token, path := "/", httpOnly := true,
    secure := isSecure, sameSite := ss, maxAge := 24 * 60 * 60 }

/-! ## Job supervisor (part_000 lines 20-22 and 353-408) -/

/-- The status field of the start-pipeline JSON response. -/
inductive StartStatus
  | started
  | alreadyRunning
  deriving DecidableEq

/-- The supervisor state: the pipelineRunning flag guarded by
pipelineMutex, together with a ghost count of the pipeline goroutines
currently outstanding (used to state mutual exclusion). -/
structure JobState where
  running : Bool
  active : Nat
  deriving DecidableEq

/-- The flag test-and-set of the start-pipeline handler (part_000 lines
359-370): under the mutex, a set flag reports already running with no
state change; a clear flag is set and one pipeline goroutine is spawned. -/
def startPipeline (s : JobState) : StartStatus × JobState :=
  if s.running then (StartStatus.alreadyRunning, s)
  else (StartStatus.started, { running := true, active := s.active + 1 })

/-- Completion of a pipeline goroutine: its deferred block clears the flag
under the mutex (part_000 lines 373-377). A completion event can only be
produced by an outstanding goroutine, so with none outstanding the state
is unchanged. -/
def finishPipeline (s : JobState) : JobState :=
  if s.active = 0 then s else { running := false, active := s.active - 1 }

/-- Events the supervisor state reacts to. -/
inductive JobEvent
  | start
  | finish
  deriving DecidableEq

/-- One supervisor step. -/
def jobStep (s : JobState) : JobEvent → JobState
  | JobEvent.start => (startPipeline s).2
  | JobEvent.finish => finishPipeline s

/-- The supervisor state after a sequence of events, from the initial
state (flag false, no goroutine outstanding). -/
def runJobTrace (evs : List JobEvent) : JobState :=
  evs.foldl jobStep { running := false, active := 0 }

/-- The body of the pipeline goroutine (part_000 lines 372-401), with the
outcomes of its two effects (os.Create of the log file, cmd.Run of the
pipeline script) passed in. -/
structure GoroutineEnv where
  logCreateOk : Bool
  pipelineOk : Bool
  deriving DecidableEq

/-- Observable effects of one run of the pipeline goroutine. -/
structure GoroutineEffect where
  /-- pipelineRunning after the deferred reset ran. -/
  runningAfter : Bool
  /-- whether the log file was created (truncating any previous log). -/
  logFileCreated : Bool
  /-- whether the pipeline script was invoked. -/
  pipelineInvoked : Bool
  /-- the message written to the process log. -/
  processLogMsg : String
  deriving DecidableEq

/-- Runs the goroutine body: if the log file cannot be created the failure
is only process-logged and the body returns (the deferred block still
clears the flag); otherwise the script runs with its combined output sent
to the log file and its exit status is process-logged. -/
def runGoroutine (env : GoroutineEnv) : GoroutineEffect :=
  if env.logCreateOk then
    if env.pipelineOk then
      { runningAfter := false, logFileCreated := true, pipelineInvoked := true,
        processLogMsg := "Pipeline completed successfully" }
    else
      { runningAfter := false, logFileCreated := true, pipelineInvoked := true,
        processLogMsg := "Pipeline failed" }
  else
    { runningAfter := false, logFileCreated := false, pipelineInvoked := false,
      processLogMsg := "Failed to create log file" }

/-! ## Status endpoint (part_000 lines 339-351) -/

/-- The /api/status handler body: the bytes of processing/status.json when
readable (passed in as an optional value), and otherwise the encoded
default object. -/
def statusResponse : Option String → String
  | some data => data
  | none =>
    goJsonObj [("status", "not_started"),
               ("message", "Processing pipeline has not been run yet")]

/-- The /api/pipeline-log handler body (part_000 lines 410-422). -/
def pipelineLogResponse : Option String → String
  | some data => data
  | none => goJsonObj [("log", "No log file found")]

/-! ## Export query builder (part_000 lines 425-511) -/

/-- The fixed base columns of the narrowed selection (part_000 line 451). -/
def baseCols : List String :=
  ["fid", "geom", "name", "iso", "state", "population"]

/-- The seven per-year derived columns appended for one trimmed year token
(part_000 lines 454-462). -/
def yearDerivedCols (y : String) : List String :=
  ["loss_pixels_" ++ y, "loss_area_ha_" ++ y, "harvest_efm_" ++ y,
   "value_eur_" ++ y, "co2_tonnes_" ++ y, "ets_eur_" ++ y,
   "ets_per_capita_" ++ y]

/-- The column list built by the export handler loop when the years
parameter is non-empty: the base columns extended, per split year token,
by the seven derived columns of its trimmed form. -/
def exportCols (yearsParam : String) : List String :=
  (splitComma yearsParam).foldl
    (fun cols year => cols ++ yearDerivedCols (goTrimSpace year)) baseCols

/-- The selected-column string (part_000 lines 448-467): the joined narrow
list when years is non-empty, otherwise "*". -/
def selectCols (yearsParam : String) : String :=
  if yearsParam ≠ "" then String.intercalate ", " (exportCols yearsParam)
  else "*"

/-- The WHERE predicate (part_000 lines 437-445): empty when the gemeinden
parameter is empty; otherwise the comma-split identifiers, each trimmed
and single-quoted, joined into an iso IN (...) predicate. -/
def whereClause (gemeindenParam : String) : String :=
  if gemeindenParam ≠ "" then
    "iso IN (" ++
      String.intercalate ","
        ((splitComma gemeindenParam).map
          (fun iso => "'" ++ goTrimSpace iso ++ "'")) ++ ")"
  else ""

/-- The generated statement (part_000 lines 470-473). -/
def exportSql (yearsParam gemeindenParam : String) : String :=
  let base := "SELECT " ++ selectCols yearsParam ++ " FROM gemeinden"
  if whereClause gemeindenParam ≠ "" then
    base ++ " WHERE " ++ whereClause gemeindenParam
  else base

/-- The synthesized attachment filename (part_000 lines 497-505). -/
def exportFilename (yearsParam gemeindenParam : String) : String :=
  let f0 := "holzeinschlag_austria"
  let f1 := if gemeindenParam ≠ "" then f0 ++ "_selection" else f0
  let f2 := if yearsParam ≠ "" then f1 ++ "_" ++ replaceCommaDash yearsParam
            else f1
  f2 ++ ".gpkg"

/-- Outcomes of the export handler's two effects: the ogr2ogr run (did it
exit non-zero?) and the subsequent read of the temporary output file. -/
structure ExportEnv where
  toolFails : Bool
  readResult : Option String
  deriving DecidableEq

/-- Responses a handler can produce. -/
inductive HttpResponse
  | ok (contentType : String) (body : String)
  | attachment (filename : String) (body : String)
  | httpError (code : Nat) (msg : String)
  deriving DecidableEq

/-- The export handler (part_000 lines 425-511). The returned boolean
records whether the temporary output path was removed before returning:
the handler registers the removal with defer right after choosing the
path, so it runs on every exit path. On tool failure the client receives
a 500 with a fixed generic message (the command output and statement are
only process-logged). -/
def runExport (yearsParam gemeindenParam : String) (env : ExportEnv) :
    HttpResponse × Bool :=
  if env.toolFails then
    (HttpResponse.httpError 500 "Failed to generate export", true)
  else
    match env.readResult with
    | none => (HttpResponse.httpError 500 "Failed to read export file", true)
    | some data =>
      (HttpResponse.attachment (exportFilename yearsParam gemeindenParam) data,
       true)

/-! ## Routing and the access-control middleware (part_000 lines 317-345)

The middleware applied to the protected file servers and API endpoints is
declared as a pass-through: authMiddleware := func(next) return next. -/

/-- A request as seen by a protected handler: the session cookie it may
carry, the current sessions map and time (the only authentication state),
and the request data the handlers actually read. -/
structure ProtRequest where
  cookie : Option String
  sessions : SessionStore
  now : Nat
  method : String
  yearsParam : String
  gemeindenParam : String
  deriving DecidableEq

/-- The protected routes registered behind the middleware. -/
inductive ProtRoute
  | statusRoute
  | startRoute
  | logRoute
  | exportRoute
  | staticRoute (path : String)
  deriving DecidableEq

/-- The file-system and tool effects a protected request can touch. -/
structure ServerEnv where
  statusArtifact : Option String
  logArtifact : Option String
  job : JobState
  exportEnv : ExportEnv
  staticContent : String → Option String
  tempRemoved : Bool

/-- Dispatch of one protected request: the response together with the
server state afterwards (job flag, whether a temporary export file was
left behind). Static file serving relays the file at the request path. -/
def dispatchProt (env : ServerEnv) (route : ProtRoute) (r : ProtRequest) :
    HttpResponse × JobState × Bool :=
  match route with
  | ProtRoute.statusRoute =>
    (HttpResponse.ok "application/json" (statusResponse env.statusArtifact),
     env.job, env.tempRemoved)
  | ProtRoute.startRoute =>
    if r.method ≠ "POST" then
      (HttpResponse.httpError 405 "Method not allowed", env.job,
       env.tempRemoved)
    else
      let res := startPipeline env.job
      let body :=
        match res.1 with
        | StartStatus.started =>
          goJsonObj [("status", "started"),
                     ("message", "Processing pipeline started")]
        | StartStatus.alreadyRunning =>
          goJsonObj [("status", "already_running"),
                     ("message", "Pipeline is already running")]
      (HttpResponse.ok "application/json" body, res.2, env.tempRemoved)
  | ProtRoute.logRoute =>
    (HttpResponse.ok "text/plain" (pipelineLogResponse env.logArtifact),
     env.job, env.tempRemoved)
  | ProtRoute.exportRoute =>
    let res := runExport r.yearsParam r.gemeindenParam env.exportEnv
    (res.1, env.job, res.2)
  | ProtRoute.staticRoute path =>
    match env.staticContent path with
    | some data => (HttpResponse.ok "application/octet-stream" data,
                    env.job, env.tempRemoved)
    | none => (HttpResponse.httpError 404 "404 page not found", env.job,
               env.tempRemoved)

/-- authMiddleware (part_000 lines 319-321): returns the next handler
unchanged — it never reads the request cookie or the session store. -/
def authMiddleware (next : ProtRequest → HttpResponse × JobState × Bool) :
    ProtRequest → HttpResponse × JobState × Bool := next

/-- A protected request served through the middleware, as registered at
part_000 lines 334-345. -/
def serveProtected (env : ServerEnv) (route : ProtRoute) (r : ProtRequest) :
    HttpResponse × JobState × Bool :=
  authMiddleware (dispatchProt env route) r

/-! ## Helper lemmas -/

theorem strData_append (a b : String) : (a ++ b).data = a.data ++ b.data := by
  cases a; cases b; rfl

theorem strExt {a b : String} (h : a.data = b.data) : a = b := by
  cases a; cases b; exact congrArg String.mk h

theorem str_ne_empty_iff (s : String) : s ≠ "" ↔ s.data ≠ [] := by
  cases s; simp [String.ext_iff]

theorem foldl_append_eq_flatMap {α β : Type} (f : α → List β) :
    ∀ (l : List α) (init : List β),
      l.foldl (fun acc x => acc ++ f x) init = init ++ l.flatMap f := by
  intro l
  induction l with
  | nil => intro init; simp
  | cons a t ih => intro init; simp [List.foldl_cons, ih, List.append_assoc]

theorem flatMap_const7_length {α β : Type} (f : α → List β)
    (h7 : ∀ a, (f a).length = 7) :
    ∀ l : List α, (l.flatMap f).length = 7 * l.length := by
  intro l
  induction l with
  | nil => simp
  | cons a t ih => simp [ih, h7, Nat.mul_add, Nat.mul_succ]; omega

theorem splitCommaChars_ne_nil (cs : List Char) : splitCommaChars cs ≠ [] := by
  induction cs with
  | nil => simp [splitCommaChars]
  | cons c rest ih =>
    cases h : splitCommaChars rest with
    | nil => exact absurd h ih
    | cons h1 t1 =>
      by_cases hc : c = ',' <;> simp [splitCommaChars, h, hc]

theorem joinDashChars_splitCommaChars (cs : List Char) :
    joinDashChars (splitCommaChars cs) =
      cs.map (fun c => if c = ',' then '-' else c) := by
  induction cs with
  | nil => rfl
  | cons c rest ih =>
    cases h : splitCommaChars rest with
    | nil => exact absurd h (splitCommaChars_ne_nil rest)
    | cons h1 t1 =>
      rw [h] at ih
      by_cases hc : c = ','
      · simp [splitCommaChars, h, hc, joinDashChars, ih]
      · cases t1 with
        | nil =>
          simp [joinDashChars] at ih
          simp [splitCommaChars, h, hc, joinDashChars, ih]
        | cons t2 t3 =>
          simp [splitCommaChars, h, hc, joinDashChars, List.cons_append] at ih ⊢
          rw [← ih]

theorem joinWith_map_mk (l : List (List Char)) :
    joinWith "-" (l.map (fun x => (⟨x⟩ : String))) = ⟨joinDashChars l⟩ := by
  induction l with
  | nil => rfl
  | cons x l2 ih =>
    cases l2 with
    | nil => rfl
    | cons y rest =>
      have : joinWith "-" ((x :: y :: rest).map (fun x => (⟨x⟩ : String))) =
          (⟨x⟩ : String) ++ "-" ++
            joinWith "-" ((y :: rest).map (fun x => (⟨x⟩ : String))) := rfl
      rw [this, ih]
      apply strExt
      simp [strData_append, joinDashChars]

theorem replaceCommaDash_eq_join (s : String) :
    replaceCommaDash s = joinWith "-" (splitComma s) := by
  rw [replaceCommaDash, splitComma, joinWith_map_mk, joinDashChars_splitCommaChars]

theorem listHasPre_mem :
    ∀ {a b : List Char}, listHasPre a b = true → ∀ {c}, c ∈ a → c ∈ b := by
  intro a
  induction a with
  | nil => intro b _ c hc; simp at hc
  | cons x xs ih =>
    intro b h c hc
    cases b with
    | nil => simp [listHasPre] at h
    | cons y ys =>
      simp [listHasPre] at h
      rcases List.mem_cons.mp hc with hcx | hcs
      · exact List.mem_cons.mpr (Or.inl (hcx.trans h.1))
      · exact List.mem_cons.mpr (Or.inr (ih h.2 hcs))

theorem subOccurs_mem :
    ∀ {hay n : List Char}, subOccurs n hay = true → ∀ {c}, c ∈ n → c ∈ hay := by
  intro hay
  induction hay with
  | nil =>
    intro n h c hc
    cases n with
    | nil => simp at hc
    | cons x xs => simp [subOccurs, listHasPre] at h
  | cons y ys ih =>
    intro n h c hc
    simp only [subOccurs, Bool.or_eq_true] at h
    rcases h with h | h
    · exact listHasPre_mem h hc
    · exact List.mem_cons.mpr (Or.inr (ih h hc))

theorem jobStep_inv (s : JobState) (e : JobEvent)
    (h1 : s.active ≤ 1) (h2 : s.running = decide (s.active = 1)) :
    (jobStep s e).active ≤ 1 ∧
      (jobStep s e).running = decide ((jobStep s e).active = 1) := by
  cases e with
  | start =>
    by_cases hr : s.running = true
    · have ha1 : s.active = 1 := by
        rw [hr] at h2; exact of_decide_eq_true h2.symm
      simp [jobStep, startPipeline, hr, ha1]
    · have hrf : s.running = false := by simpa using hr
      have hne : s.active ≠ 1 := by
        intro ha; rw [ha] at h2; simp [hrf] at h2
      have ha0 : s.active = 0 := by omega
      simp [jobStep, startPipeline, hrf, ha0]
  | finish =>
    by_cases ha : s.active = 0
    · have : finishPipeline s = s := by simp [finishPipeline, ha]
      simp only [jobStep, this]
      exact ⟨h1, h2⟩
    · have ha1 : s.active = 1 := by omega
      simp [jobStep, finishPipeline, ha, ha1]

theorem foldl_jobStep_inv :
    ∀ (evs : List JobEvent) (s : JobState),
      s.active ≤ 1 → s.running = decide (s.active = 1) →
      (evs.foldl jobStep s).active ≤ 1 ∧
        (evs.foldl jobStep s).running =
          decide ((evs.foldl jobStep s).active = 1) := by
  intro evs
  induction evs with
  | nil => intro s h1 h2; exact ⟨h1, h2⟩
  | cons e t ih =>
    intro s h1 h2
    have step := jobStep_inv s e h1 h2
    simpa [List.foldl_cons] using ih (jobStep s e) step.1 step.2

theorem runJobTrace_inv (evs : List JobEvent) :
    (runJobTrace evs).active ≤ 1 ∧
      (runJobTrace evs).running = decide ((runJobTrace evs).active = 1) :=
  foldl_jobStep_inv evs { running := false, active := 0 } (by simp) (by simp)

/-! ## Claim theorems -/

/-- C3 (counterexample): the claim says the body on a missing artifact is
exactly the JSON object with the status key first and no trailing newline;
the Go encoder serializes map keys in sorted order (message before status)
and appends a newline, so the actual body differs from the claimed one. -/
theorem C3_status_body_counterexample :
    statusResponse none ≠
      "\x7b\"status\":\"not_started\",\"message\":\"Processing pipeline has not been run yet\"\x7d" := by
  decide

/-- C3 (amended): when the status artifact is absent or unreadable, the
body is exactly the encoded default object with its keys in the encoder's
sorted order, message before status, followed by a newline; when the file
is readable, the body is exactly its raw bytes. -/
theorem C3_status_body :
    statusResponse none =
      "\x7b\"message\":\"Processing pipeline has not been run yet\",\"status\":\"not_started\"\x7d\n"
    ∧ ∀ d : String, statusResponse (some d) = d :=
  ⟨by decide, fun _ => rfl⟩

/-- C4: the session-validity check returns true iff the token is present
in the store and the current time is strictly before its stored expiry; a
missing cookie yields false; a token is stored by create with expiry equal
to creation time plus the 24-hour duration and is valid immediately; a
token never issued is invalid; an issued token is invalid once the TTL has
elapsed — absence and expiry both yield plain false. -/
theorem C4_session_validity (store : SessionStore) (tok : String)
    (now now2 : Nat) :
    (isValidSession store (some tok) now = true ↔
      ∃ e, lookupSession store tok = some e ∧ now < e)
    ∧ isValidSession store none now = false
    ∧ lookupSession (createSession store tok now) tok =
        some (now + sessionDuration)
    ∧ isValidSession (createSession store tok now) (some tok) now = true
    ∧ (lookupSession store tok = none →
        isValidSession store (some tok) now = false)
    ∧ (now + sessionDuration ≤ now2 →
        isValidSession (createSession store tok now) (some tok) now2 = false) := by
  refine ⟨?_, rfl, ?_, ?_, ?_, ?_⟩
  · constructor
    · intro h
      cases hl : lookupSession store tok with
      | none => rw [isValidSession, hl] at h; exact absurd h (by simp)
      | some e =>
        rw [isValidSession, hl] at h
        exact ⟨e, rfl, of_decide_eq_true h⟩
    · rintro ⟨e, he, hlt⟩
      rw [isValidSession, he]
      exact decide_eq_true hlt
  · simp [createSession, lookupSession]
  · have : lookupSession (createSession store tok now) tok =
        some (now + sessionDuration) := by simp [createSession, lookupSession]
    rw [isValidSession, this]
    exact decide_eq_true (Nat.lt_add_of_pos_right (by decide))
  · intro hl; rw [isValidSession, hl]
  · intro hle
    have : lookupSession (createSession store tok now) tok =
        some (now + sessionDuration) := by simp [createSession, lookupSession]
    rw [isValidSession, this]
    simp
    omega

/-- C4 witness: a concrete instantiation of the session-validity theorem,
with its two hypotheses discharged at concrete inputs. -/
theorem C4_session_validity_witness :
    (lookupSession [] "t0" = none → isValidSession [] (some "t0") 5 = false)
    ∧ (5 + sessionDuration ≤ 5 + sessionDuration →
        isValidSession (createSession [] "t0" 5) (some "t0")
          (5 + sessionDuration) = false)
    ∧ isValidSession [] (some "t0") 5 = false
    ∧ isValidSession (createSession [] "t0" 5) (some "t0")
        (5 + sessionDuration) = false :=
  ⟨(C4_session_validity [] "t0" 5 (5 + sessionDuration)).2.2.2.2.1,
   (C4_session_validity [] "t0" 5 (5 + sessionDuration)).2.2.2.2.2,
   (C4_session_validity [] "t0" 5 (5 + sessionDuration)).2.2.2.2.1 rfl,
   (C4_session_validity [] "t0" 5 (5 + sessionDuration)).2.2.2.2.2
     (Nat.le_refl _)⟩

/-- C6: the session cookie is always HTTP-only; it is Secure with
SameSite None exactly when the request has direct TLS or an
X-Forwarded-Proto header equal to https, and otherwise it is SameSite Lax
and not Secure. -/
theorem C6_cookie_flags (token xfp : String) (tls : Bool) :
    (buildSessionCookie token xfp tls).httpOnly = true
    ∧ ((buildSessionCookie token xfp tls).secure = true ∧
        (buildSessionCookie token xfp tls).sameSite = SameSite.noneMode ↔
        tls = true ∨ xfp = "https")
    ∧ (tls = false → xfp ≠ "https" →
        (buildSessionCookie token xfp tls).secure = false ∧
        (buildSessionCookie token xfp tls).sameSite = SameSite.laxMode) := by
  by_cases hx : xfp = "https" <;> cases tls <;>
    simp [buildSessionCookie, hx]

/-- C6 witness: the cookie-flag theorem at concrete inputs, with the
plain-HTTP hypotheses discharged. -/
theorem C6_cookie_flags_witness :
    (buildSessionCookie "tok" "http" false).secure = false ∧
    (buildSessionCookie "tok" "http" false).sameSite = SameSite.laxMode :=
  (C6_cookie_flags "tok" "http" false).2.2 rfl (by decide)

/-- C8: on every execution path of the pipeline goroutine, including the
path where the log file cannot be created, the running flag is false once
the goroutine completes; on the log-creation-failure path the pipeline is
never invoked, no log file is produced, and the failure is only written to
the process log, while the start response already returned started for any
idle pre-state regardless of the goroutine environment. -/
theorem C8_goroutine_reset (env : GoroutineEnv) (s : JobState) :
    (runGoroutine env).runningAfter = false
    ∧ (env.logCreateOk = false →
        (runGoroutine env).pipelineInvoked = false
        ∧ (runGoroutine env).logFileCreated = false
        ∧ (runGoroutine env).processLogMsg = "Failed to create log file")
    ∧ (s.running = false → (startPipeline s).1 = StartStatus.started) := by
  refine ⟨?_, ?_, ?_⟩
  · cases h1 : env.logCreateOk <;> cases h2 : env.pipelineOk <;>
      simp [runGoroutine, h1, h2]
  · intro h
    simp [runGoroutine, h]
  · intro h
    simp [startPipeline, h]

/-- C8 witness: the goroutine-reset theorem at the concrete environment
where log creation fails, hypotheses discharged. -/
theorem C8_goroutine_reset_witness :
    (runGoroutine { logCreateOk := false, pipelineOk := false }).pipelineInvoked
        = false
    ∧ (runGoroutine { logCreateOk := false, pipelineOk := false }).logFileCreated
        = false
    ∧ (runGoroutine { logCreateOk := false, pipelineOk := false }).processLogMsg
        = "Failed to create log file" :=
  (C8_goroutine_reset { logCreateOk := false, pipelineOk := false }
    { running := false, active := 0 }).2.1 rfl

/-- C1: along every sequence of start and completion events, at most one
pipeline job is outstanding at any instant and the flag tracks it; a start
while the flag is false returns started and sets the flag, a start while
the flag is true returns already running and leaves the whole state
unchanged, and after a started job completes (resetting the flag) a
subsequent start again returns started. -/
theorem C1_start_mutual_exclusion (evs : List JobEvent) :
    (runJobTrace evs).active ≤ 1
    ∧ ((runJobTrace evs).running = true ↔ (runJobTrace evs).active = 1)
    ∧ ((runJobTrace evs).running = false →
        startPipeline (runJobTrace evs) =
          (StartStatus.started,
           { running := true, active := (runJobTrace evs).active + 1 }))
    ∧ ((runJobTrace evs).running = true →
        startPipeline (runJobTrace evs) =
          (StartStatus.alreadyRunning, runJobTrace evs))
    ∧ ((runJobTrace evs).running = false →
        (startPipeline (startPipeline (runJobTrace evs)).2).1 =
            StartStatus.alreadyRunning
        ∧ (startPipeline
            (finishPipeline (startPipeline (runJobTrace evs)).2)).1 =
            StartStatus.started)
    ∧ (∀ (envS : ServerEnv) (r : ProtRequest), r.method = "POST" →
        envS.job = runJobTrace evs →
        ((runJobTrace evs).running = false →
          dispatchProt envS ProtRoute.startRoute r =
            (HttpResponse.ok "application/json"
              (goJsonObj [("status", "started"),
                          ("message", "Processing pipeline started")]),
             { running := true, active := (runJobTrace evs).active + 1 },
             envS.tempRemoved))
        ∧ ((runJobTrace evs).running = true →
          dispatchProt envS ProtRoute.startRoute r =
            (HttpResponse.ok "application/json"
              (goJsonObj [("status", "already_running"),
                          ("message", "Pipeline is already running")]),
             runJobTrace evs, envS.tempRemoved))) := by
  obtain ⟨hle, hflag⟩ := runJobTrace_inv evs
  refine ⟨hle, ?_, ?_, ?_, ?_, ?_⟩
  · constructor
    · intro h; rw [h] at hflag; exact of_decide_eq_true hflag.symm
    · intro h; rw [hflag, h]; simp
  · intro h; simp [startPipeline, h]
  · intro h; simp [startPipeline, h]
  · intro h
    constructor
    · simp [startPipeline, h]
    · simp [startPipeline, finishPipeline, h]
  · intro envS r hm hjob
    constructor
    · intro h
      simp [dispatchProt, hm, hjob, startPipeline, h]
    · intro h
      simp [dispatchProt, hm, hjob, startPipeline, h]

/-- C1 witness: the mutual-exclusion theorem applied to concrete traces,
discharging the flag-valued hypotheses: after one start the flag is set
and a second start reports already running without changing state; from
the initial state a start reports started, and a start after a
start-finish cycle again reports started. -/
theorem C1_start_mutual_exclusion_witness :
    startPipeline (runJobTrace [JobEvent.start]) =
      (StartStatus.alreadyRunning, runJobTrace [JobEvent.start])
    ∧ startPipeline (runJobTrace []) =
        (StartStatus.started, { running := true, active := 1 })
    ∧ (startPipeline
        (finishPipeline (startPipeline (runJobTrace [])).2)).1 =
        StartStatus.started
    ∧ dispatchProt
        { statusArtifact := none, logArtifact := none, job := runJobTrace [],
          exportEnv := { toolFails := false, readResult := none },
          staticContent := fun _ => none, tempRemoved := true }
        ProtRoute.startRoute
        { cookie := none, sessions := [], now := 0, method := "POST",
          yearsParam := "", gemeindenParam := "" } =
        (HttpResponse.ok "application/json"
          (goJsonObj [("status", "started"),
                      ("message", "Processing pipeline started")]),
         { running := true, active := (runJobTrace []).active + 1 }, true) :=
  ⟨(C1_start_mutual_exclusion [JobEvent.start]).2.2.2.1 (by decide),
   (C1_start_mutual_exclusion []).2.2.1 (by decide),
   ((C1_start_mutual_exclusion []).2.2.2.2.1 (by decide)).2,
   ((C1_start_mutual_exclusion []).2.2.2.2.2
     { statusArtifact := none, logArtifact := none, job := runJobTrace [],
       exportEnv := { toolFails := false, readResult := none },
       staticContent := fun _ => none, tempRemoved := true }
     { cookie := none, sessions := [], now := 0, method := "POST",
       yearsParam := "", gemeindenParam := "" } rfl rfl).1 (by decide)⟩

/-- C2: with a non-empty years parameter the generated column list is the
six fixed base columns followed, for each comma-split year token, by
exactly the seven derived columns of its trimmed form, so 6 + 7 n columns
for n tokens; with the years parameter absent the selection is the star
wildcard, selecting all columns. -/
theorem C2_export_columns (y : String) :
    selectCols "" = "*"
    ∧ (∀ t, (yearDerivedCols t).length = 7)
    ∧ (y ≠ "" →
        exportCols y =
          baseCols ++
            (splitComma y).flatMap (fun t => yearDerivedCols (goTrimSpace t))
        ∧ (exportCols y).length = 6 + 7 * (splitComma y).length
        ∧ selectCols y = String.intercalate ", " (exportCols y)) := by
  refine ⟨by simp [selectCols], fun t => rfl, ?_⟩
  intro hy
  have hcols : exportCols y =
      baseCols ++
        (splitComma y).flatMap (fun t => yearDerivedCols (goTrimSpace t)) :=
    foldl_append_eq_flatMap _ _ _
  refine ⟨hcols, ?_, by simp [selectCols, hy]⟩
  rw [hcols, List.length_append,
    flatMap_const7_length (fun t => yearDerivedCols (goTrimSpace t))
      (fun _ => rfl)]
  rfl

/-- C2 witness: the column-list theorem applied at the two-year request of
the spec's test, discharging the non-emptiness hypothesis; for two year
tokens the narrowed list has 6 + 14 columns. -/
theorem C2_export_columns_witness :
    (exportCols "2021,2022").length = 6 + 7 * (splitComma "2021,2022").length :=
  ((C2_export_columns "2021,2022").2.2 (by decide)).2.1

/-- C5: with a non-empty gemeinden parameter, the generated statement is
the select clause followed by a WHERE predicate restricting iso to one of
the supplied identifiers, each comma-split identifier trimmed and
interpolated directly as a single-quoted literal; with the parameter
empty, the statement is the bare select with no WHERE. -/
theorem C5_where_predicate (y g : String) :
    (g ≠ "" →
      whereClause g =
        "iso IN (" ++
          String.intercalate ","
            ((splitComma g).map (fun iso => "'" ++ goTrimSpace iso ++ "'"))
          ++ ")"
      ∧ exportSql y g =
          ("SELECT " ++ selectCols y ++ " FROM gemeinden") ++ " WHERE " ++
            whereClause g)
    ∧ exportSql y "" = "SELECT " ++ selectCols y ++ " FROM gemeinden" := by
  constructor
  · intro hg
    have hwc : whereClause g =
        "iso IN (" ++
          String.intercalate ","
            ((splitComma g).map (fun iso => "'" ++ goTrimSpace iso ++ "'"))
          ++ ")" := by
      simp [whereClause, hg]
    refine ⟨hwc, ?_⟩
    have hw : whereClause g ≠ "" := by
      rw [hwc, str_ne_empty_iff, strData_append, strData_append]
      have h8 : ("iso IN (" : String).data =
          ['i', 's', 'o', ' ', 'I', 'N', ' ', '('] := rfl
      rw [h8]
      simp
    simp [exportSql, hw]
  · simp [exportSql, whereClause]

/-- C5 witness: the predicate theorem at a concrete request with two
region identifiers, one carrying surrounding whitespace, the
non-emptiness hypothesis discharged. -/
theorem C5_where_predicate_witness :
    whereClause "AT-1, AT-2" =
      "iso IN (" ++
        String.intercalate ","
          ((splitComma "AT-1, AT-2").map
            (fun iso => "'" ++ goTrimSpace iso ++ "'"))
        ++ ")"
    ∧ exportSql "" "AT-1, AT-2" =
        ("SELECT " ++ selectCols "" ++ " FROM gemeinden") ++ " WHERE " ++
          whereClause "AT-1, AT-2" :=
  (C5_where_predicate "" "AT-1, AT-2").1 (by decide)

/-- C7: the export handler removes its temporary output path on every exit
path, and when the external tool exits non-zero the client receives a 500
with a fixed generic message in which the generated statement never
occurs. -/
theorem C7_export_failure (y g : String) (env : ExportEnv) :
    (runExport y g env).2 = true
    ∧ (env.toolFails = true →
        (runExport y g env).1 =
          HttpResponse.httpError 500 "Failed to generate export"
        ∧ subOccurs (exportSql y g).data
            ("Failed to generate export" : String).data = false) := by
  have hS : 'S' ∈ (exportSql y g).data := by
    have h7 : ("SELECT " : String).data =
        ['S', 'E', 'L', 'E', 'C', 'T', ' '] := rfl
    by_cases hw : whereClause g ≠ "" <;>
      simp [exportSql, hw, strData_append, h7]
  refine ⟨?_, ?_⟩
  · cases ht : env.toolFails
    · cases hr : env.readResult <;> simp [runExport, ht, hr]
    · simp [runExport, ht]
  · intro ht
    refine ⟨by simp [runExport, ht], ?_⟩
    cases hb : subOccurs (exportSql y g).data
        ("Failed to generate export" : String).data
    · rfl
    · exact absurd (subOccurs_mem hb hS) (by decide)

/-- C7 witness: the failure-path theorem at a concrete request whose tool
run fails, the hypothesis discharged. -/
theorem C7_export_failure_witness :
    (runExport "2021" "AT-1" { toolFails := true, readResult := none }).1 =
      HttpResponse.httpError 500 "Failed to generate export"
    ∧ subOccurs (exportSql "2021" "AT-1").data
        ("Failed to generate export" : String).data = false :=
  (C7_export_failure "2021" "AT-1" { toolFails := true, readResult := none }).2
    rfl

/-- C9: the attachment filename is the base name, with a selection marker
appended exactly when a regions filter was supplied, and an underscore
followed by the year tokens joined by dashes appended exactly when a years
filter was supplied, ending in the gpkg extension. -/
theorem C9_export_filename (y g : String) :
    exportFilename y g =
      "holzeinschlag_austria" ++ (if g ≠ "" then "_selection" else "") ++
        (if y ≠ "" then "_" ++ joinWith "-" (splitComma y) else "") ++
        ".gpkg" := by
  by_cases hg : g = "" <;> by_cases hy : y = "" <;>
    (apply strExt;
     simp [exportFilename, hg, hy, strData_append, replaceCommaDash_eq_join,
       List.append_assoc])

/-- C10: for every protected route, the response and the resulting server
state are identical whatever session cookie the request carries and
whatever the session store and clock hold, and the access-control
middleware is the identity on handlers — it never consults the session
store. -/
theorem C10_auth_passthrough (env : ServerEnv) (route : ProtRoute)
    (r : ProtRequest) (c1 c2 : Option String) (s1 s2 : SessionStore)
    (n1 n2 : Nat) :
    serveProtected env route { r with cookie := c1, sessions := s1, now := n1 }
      = serveProtected env route
          { r with cookie := c2, sessions := s2, now := n2 }
    ∧ ∀ next, authMiddleware next = next := by
  refine ⟨?_, fun _ => rfl⟩
  cases route <;> rfl

end Holzeinschlag
